import Mathlib

/-!
Shallow embedding of the `ScrollMixin` of `vaadin-grid`
(`src/vaadin-grid-scroll-mixin.js`).

JavaScript numbers that matter here are integer-valued pixel quantities,
so they are modelled as `Option Int`: `some n` is the ordinary number `n`,
`none` stands for `NaN` (and for `undefined` flowing into arithmetic or a
comparison, since `ToNumber(undefined) = NaN`, every arithmetic operation
on `NaN` yields `NaN`, and every ordering comparison involving `NaN` or
`undefined` is `false`).

DOM elements are modelled by their scroll metrics plus the computed
`overflow` style and the tag name, which is all the mixin reads of them.
-/

namespace VaadinGridScroll

/-- JS number-or-NaN/undefined (see module comment). -/
abbrev JNum := Option Int

/-- JS `+` on numbers (NaN-propagating). -/
def jsAdd : JNum → JNum → JNum
  | some a, some b => some (a + b)
  | _, _ => none

/-- JS `-` on numbers (NaN-propagating). -/
def jsSub : JNum → JNum → JNum
  | some a, some b => some (a - b)
  | _, _ => none

/-- JS `*` on numbers (NaN-propagating; in particular `x * undefined = NaN`). -/
def jsMul : JNum → JNum → JNum
  | some a, some b => some (a * b)
  | _, _ => none

/-- JS `Math.abs` (NaN-propagating). -/
def jsAbs : JNum → JNum
  | some a => some |a|
  | none => none

/-- JS `<` (false when either side is NaN/undefined). -/
def jsLt : JNum → JNum → Bool
  | some a, some b => decide (a < b)
  | _, _ => false

/-- JS `>` (false when either side is NaN/undefined). -/
def jsGt : JNum → JNum → Bool
  | some a, some b => decide (b < a)
  | _, _ => false

/-- JS `<=` (false when either side is NaN/undefined). -/
def jsLe : JNum → JNum → Bool
  | some a, some b => decide (a ≤ b)
  | _, _ => false

/-- A DOM element as seen by the mixin: its scroll metrics (all integer
pixel values), its computed `overflow` style string, and its tag name. -/
structure Elem where
  localName : String
  scrollTop : Int
  scrollLeft : Int
  scrollHeight : Int
  scrollWidth : Int
  clientHeight : Int
  clientWidth : Int
  offsetHeight : Int
  offsetWidth : Int
  overflow : String
  deriving DecidableEq

/-- `_canScroll(el, deltaX, deltaY)` (scroll-mixin lines 212-219):
"Determines if the the given scroll deltas can be applied to the element
(fully or partially)".  Note the source compares against `offsetHeight` /
`offsetWidth`, not `clientHeight` / `clientWidth`. -/
def canScroll (el : Elem) (deltaX deltaY : JNum) : Bool :=
  (jsGt deltaY (some 0) && decide (el.scrollTop < el.scrollHeight - el.offsetHeight)) ||
  (jsLt deltaY (some 0) && decide (0 < el.scrollTop)) ||
  (jsGt deltaX (some 0) && decide (el.scrollLeft < el.scrollWidth - el.offsetWidth)) ||
  (jsLt deltaX (some 0) && decide (0 < el.scrollLeft))

/-- The capacity test exactly as the spec's words state it (clientHeight /
clientWidth based); kept separate from `canScroll` for comparison. -/
def specCanScrollClient (el : Elem) (deltaX deltaY : Int) : Bool :=
  (decide (0 < deltaY) && decide (el.scrollTop < el.scrollHeight - el.clientHeight)) ||
  (decide (deltaY < 0) && decide (0 < el.scrollTop)) ||
  (decide (0 < deltaX) && decide (el.scrollLeft < el.scrollWidth - el.clientWidth)) ||
  (decide (deltaX < 0) && decide (0 < el.scrollLeft))

/-- The capacity test as the amended claim states it (offsetHeight /
offsetWidth based), written from the amended words for comparison with
`canScroll`. -/
def amendedCanScroll (el : Elem) (deltaX deltaY : Int) : Bool :=
  (decide (0 < deltaY) && decide (el.scrollTop < el.scrollHeight - el.offsetHeight)) ||
  (decide (deltaY < 0) && decide (0 < el.scrollTop)) ||
  (decide (0 < deltaX) && decide (el.scrollLeft < el.scrollWidth - el.offsetWidth)) ||
  (decide (deltaX < 0) && decide (0 < el.scrollLeft))

/-- A node of the ancestor chain walked by `_hasScrolledAncestor`:
the element plus whether it is the grid host itself (`el === this`). -/
structure DomNode where
  el : Elem
  isGrid : Bool
  deriving DecidableEq

/-- `['auto', 'scroll'].indexOf(getComputedStyle(el).overflow) !== -1`. -/
def overflowScrollable (el : Elem) : Bool :=
  el.overflow == "auto" || el.overflow == "scroll"

/-- `_hasScrolledAncestor(el, deltaX, deltaY)` (lines 194-205), on the
ancestor chain `[target, target.parentElement, ...]`.  The empty-tail case
models `el.parentElement` being absent; the implicit `return undefined`
of the source (falsy at the only call site) is modelled as `false`. -/
def hasScrolledAncestor : List DomNode → Int → Int → Bool
  | [], _, _ => false
  | n :: rest, deltaX, deltaY =>
    if n.el.localName == "vaadin-grid-cell-content" then false
    else if canScroll n.el (some deltaX) (some deltaY) && overflowScrollable n.el then true
    else if !n.isGrid && !rest.isEmpty then hasScrolledAncestor rest deltaX deltaY
    else false

/-- `true` when some node of the chain passes the capacity-plus-overflow
test and no node at or before it is the `vaadin-grid-cell-content`
boundary: the shape of witness the ancestor prober's `true` requires. -/
def triggerBeforeBoundary : List DomNode → Int → Int → Bool
  | [], _, _ => false
  | n :: rest, deltaX, deltaY =>
    !(n.el.localName == "vaadin-grid-cell-content") &&
      ((canScroll n.el (some deltaX) (some deltaY) && overflowScrollable n.el) ||
        triggerBeforeBoundary rest deltaX deltaY)

/-- `e.deltaMode`: `WheelEvent.DOM_DELTA_PIXEL` / `DOM_DELTA_LINE` /
`DOM_DELTA_PAGE`.  The source tests LINE and PAGE with `else if`, so any
other mode falls through to pixel behaviour. -/
inductive DeltaMode
  | pixel
  | line
  | page
  deriving DecidableEq

/-- The delta-normalization step of `_onWheel` (lines 140-147):
`deltaY *= this._scrollLineHeight` for LINE mode (the line height is
`Number|undefined`, per `_getScrollLineHeight`), `deltaY *= this._scrollPageHeight`
for PAGE mode, passthrough otherwise. -/
def normalizeDeltaY (deltaMode : DeltaMode) (deltaY : Int)
    (scrollLineHeight : Option Int) (scrollPageHeight : JNum) : JNum :=
  match deltaMode with
  | .pixel => some deltaY
  | .line => jsMul (some deltaY) scrollLineHeight
  | .page => jsMul (some deltaY) scrollPageHeight

/-- `_scrollViewportHeightUpdated(_viewportHeight)` (lines 87-90):
`this._scrollPageHeight = _viewportHeight - this.$.header.clientHeight -
this.$.footer.clientHeight - this._scrollLineHeight` (left-associated JS
subtraction; the line height may be `undefined`). -/
def scrollViewportHeightUpdated (viewportHeight headerClientHeight footerClientHeight : Int)
    (scrollLineHeight : Option Int) : JNum :=
  jsSub (jsSub (jsSub (some viewportHeight) (some headerClientHeight))
    (some footerClientHeight)) scrollLineHeight

/-- The DOM `scrollTop` setter applied by `table.scrollTop += deltaY`:
per CSSOM View, a non-finite value is normalized to 0 and the result is
clamped into `[0, scrollHeight - clientHeight]`.  (Platform behaviour of
the assignment target, not code of the mixin.) -/
def setScrollTop (el : Elem) (v : JNum) : Elem :=
  let x : Int := match v with | some n => n | none => 0
  { el with scrollTop := max 0 (min x (el.scrollHeight - el.clientHeight)) }

/-- The DOM `scrollLeft` setter, analogously clamped into
`[0, scrollWidth - clientWidth]` (left-to-right direction). -/
def setScrollLeft (el : Elem) (v : JNum) : Elem :=
  let x : Int := match v with | some n => n | none => 0
  { el with scrollLeft := max 0 (min x (el.scrollWidth - el.clientWidth)) }

/-- A wheel event as read by `_onWheel`: modifier, raw deltas, delta mode,
and the ancestor chain of its target (for `_hasScrolledAncestor`). -/
structure Wheel where
  ctrlKey : Bool
  deltaX : Int
  deltaY : Int
  deltaMode : DeltaMode
  chain : List DomNode
  deriving DecidableEq

/-- The mutable fields of the mixin that `_onWheel` reads and writes,
plus the scroll surface (`this.$.table`).  `_hasResidualMomentum` and
`_ignoreNewWheel` start out undefined (falsy), modelled as `false`;
`_previousMomentum` starts out undefined, modelled as `none`. -/
structure GridState where
  table : Elem
  deltaYAcc : JNum
  wheelAnimationFrame : Bool
  hasResidualMomentum : Bool
  ignoreNewWheel : Bool
  previousMomentum : JNum
  scrollLineHeight : Option Int
  scrollPageHeight : JNum
  deriving DecidableEq

/-- The effective vertical delta of a wheel event processed outside an
animation frame: the normalized delta plus the folded-in accumulator
(`deltaY += this._deltaYAcc`, line 156). -/
def effDeltaY (s : GridState) (e : Wheel) : JNum :=
  jsAdd (normalizeDeltaY e.deltaMode e.deltaY s.scrollLineHeight s.scrollPageHeight) s.deltaYAcc

/-- `const momentum = Math.abs(e.deltaX) + Math.abs(deltaY)` (line 166),
with `deltaY` the effective (normalized and accumulated) vertical delta. -/
def momentumOf (s : GridState) (e : Wheel) : JNum :=
  jsAdd (jsAbs (some e.deltaX)) (jsAbs (effDeltaY s e))

/-- `_onWheel(e)` (lines 133-187).  Returns the successor state together
with whether `e.preventDefault()` was called.  The `Debouncer.debounce`
calls only (re)schedule the flag-clearing callbacks modelled separately by
`wheelAnimationFrameFire` and `ignoreNewWheelTimeout`; `_scrollHandler()`
feeds the visual-update scheduler, outside this state. -/
def onWheel (s : GridState) (e : Wheel) : GridState × Bool :=
  if e.ctrlKey || hasScrolledAncestor e.chain e.deltaX e.deltaY then
    (s, false)
  else if s.wheelAnimationFrame then
    let acc := jsAdd s.deltaYAcc (normalizeDeltaY e.deltaMode e.deltaY s.scrollLineHeight s.scrollPageHeight)
    ({ s with deltaYAcc := acc }, true)
  else
    let deltaY := effDeltaY s e
    let momentum := momentumOf s e
    let s1 := { s with deltaYAcc := some 0, wheelAnimationFrame := true }
    if canScroll s1.table (some e.deltaX) deltaY then
      let t1 := setScrollTop s1.table (jsAdd (some s1.table.scrollTop) deltaY)
      let t2 := setScrollLeft t1 (jsAdd (some t1.scrollLeft) (some e.deltaX))
      let s2 := { s1 with table := t2, hasResidualMomentum := true, ignoreNewWheel := true, previousMomentum := momentum }
      (s2, true)
    else if (s1.hasResidualMomentum && jsLe momentum s1.previousMomentum) || s1.ignoreNewWheel then
      ({ s1 with previousMomentum := momentum }, true)
    else if jsGt momentum s1.previousMomentum then
      ({ s1 with hasResidualMomentum := false, previousMomentum := momentum }, false)
    else
      ({ s1 with previousMomentum := momentum }, false)

/-- The animation-frame callback `() => (this._wheelAnimationFrame = false)`. -/
def wheelAnimationFrameFire (s : GridState) : GridState :=
  { s with wheelAnimationFrame := false }

/-- The `IGNORE_WHEEL` (500ms) timeout callback
`() => (this._ignoreNewWheel = false)`. -/
def ignoreNewWheelTimeout (s : GridState) : GridState :=
  { s with ignoreNewWheel := false }

/-- A physical row element in `this.$.items`: its logical `index` property
(written by the virtualizer) and its `hidden` flag. -/
structure Row where
  index : Int
  hidden : Bool
  deriving DecidableEq

/-- The state `_reorderRows` reads and writes: the physical row order of
the items body, the focused-row reference, the virtualizer offset
`_virtualStart + _vidxOffset`, and the scrollbar-drag flags. -/
structure RState where
  items : List Row
  focused : Option Row
  adjustedVirtualStart : Int
  mouseDown : Bool
  pendingReorder : Bool
  deriving DecidableEq

/-- `Array.from(items).indexOf(targetRow)`: position of the row in the
physical list, `-1` when absent. -/
def jsIndexOf (l : List Row) (r : Row) : Int :=
  if r ∈ l then (l.indexOf r : Int) else -1

/-- The target-row selection of `_reorderRows` (line 296):
`this._rowWithFocusedElement || Array.from(items).filter((row) => !row.hidden)[0]`.
The focused reference is used whenever set, with no membership check
against the rendered rows. -/
def reorderTarget (focused : Option Row) (items : List Row) : Option Row :=
  match focused with
  | some r => some r
  | none => (items.filter fun r => !r.hidden).head?

/-- The target-row selection as the spec's words state it: the focused row
only "if present and still rendered", else the first non-hidden row.
Kept separate from `reorderTarget` for comparison. -/
def reorderTargetSpec (focused : Option Row) (items : List Row) : Option Row :=
  match focused with
  | some r => if r ∈ items then some r else (items.filter fun r => !r.hidden).head?
  | none => (items.filter fun r => !r.hidden).head?

/-- `_reorderRows()` (lines 281-315).  Returns the successor state and the
number of row-node moves (`appendChild` / `insertBefore` calls) performed.
For `delta > 0` the loop `for (i = 0; i < delta; i++) body.appendChild(items[i])`
moves the first `delta` rows of the static snapshot to the end, i.e. (for
`delta <= items.length`, the only case reachable below a valid rotation)
the result is `items.drop delta ++ items.take delta`; for `delta < 0` the
loop `for (i = items.length + delta; i < items.length; i++)
body.insertBefore(items[i], items[0])` moves the last `|delta|` rows, in
order, before the original first row, i.e. the result is
`items.drop (items.length - |delta|) ++ items.take (items.length - |delta|)`. -/
def reorderRows (s : RState) : RState × Nat :=
  if s.mouseDown then
    ({ s with pendingReorder := true }, 0)
  else if s.items.isEmpty then
    (s, 0)
  else
    match reorderTarget s.focused s.items with
    | none => (s, 0)
    | some targetRow =>
      let targetPhysicalIndex : Int := targetRow.index - s.adjustedVirtualStart
      let delta : Int := jsIndexOf s.items targetRow - targetPhysicalIndex
      if 0 < delta then
        ({ s with items := s.items.drop delta.toNat ++ s.items.take delta.toNat }, delta.toNat)
      else if delta < 0 then
        ({ s with items :=
            s.items.drop (s.items.length - (-delta).toNat) ++
              s.items.take (s.items.length - (-delta).toNat) },
          (-delta).toNat)
      else
        (s, 0)

/-- The event alphabet of the scrollbar-drag deferral protocol wired in
`ready()` (lines 109-118): a reorder trigger, the `mousedown` / `mouseup`
listeners on the scroll target, and the firing of the `setTimeout`
scheduled on release. -/
inductive DragEvent
  | reorderReq
  | mouseDown
  | mouseUp
  | timerFire
  deriving DecidableEq

/-- Reorder state plus the number of `setTimeout(() => this._reorderRows(), ...)`
callbacks currently scheduled. -/
structure DragModel where
  r : RState
  scheduled : Nat
  deriving DecidableEq

/-- One step of the drag-deferral protocol.  Returns the successor model
and the number of row moves performed during the step. -/
def dragStep (m : DragModel) : DragEvent → DragModel × Nat
  | .reorderReq =>
    let p := reorderRows m.r
    ({ m with r := p.1 }, p.2)
  | .mouseDown =>
    ({ m with r := { m.r with mouseDown := true } }, 0)
  | .mouseUp =>
    let r1 := { m.r with mouseDown := false }
    if r1.pendingReorder then
      ({ m with r := { r1 with pendingReorder := false }, scheduled := m.scheduled + 1 }, 0)
    else
      ({ m with r := r1 }, 0)
  | .timerFire =>
    if m.scheduled ≠ 0 then
      let p := reorderRows m.r
      ({ m with r := p.1, scheduled := m.scheduled - 1 }, p.2)
    else
      (m, 0)

/-! Concrete instances used by counterexamples and witnesses. -/

/-- An element whose `offsetHeight` (1000) exceeds its `clientHeight` (400),
as happens for any element with borders or a horizontal scrollbar. -/
def c1Elem : Elem := { localName := "div", scrollTop := 0, scrollLeft := 0, scrollHeight := 1000, scrollWidth := 0, clientHeight := 400, clientWidth := 0, offsetHeight := 1000, offsetWidth := 0, overflow := "visible" }

/-- The spec's example element: `scrollTop = 0`, `scrollHeight = 1000`,
`clientHeight = 400` (borderless, so `offsetHeight = clientHeight`). -/
def c1Example : Elem := { c1Elem with offsetHeight := 400 }

/-- A scroll surface at the top with room to scroll down. -/
def wTable : Elem := { localName := "table", scrollTop := 0, scrollLeft := 0, scrollHeight := 1000, scrollWidth := 0, clientHeight := 400, clientWidth := 0, offsetHeight := 400, offsetWidth := 0, overflow := "visible" }

/-- A neutral wheel-handler state over `wTable`. -/
def wState : GridState := { table := wTable, deltaYAcc := some 0, wheelAnimationFrame := false, hasResidualMomentum := false, ignoreNewWheel := false, previousMomentum := none, scrollLineHeight := some 16, scrollPageHeight := some 514 }

/-- A state in the middle of the 500ms cooldown window
(`_ignoreNewWheel = true`), with residual momentum recorded. -/
def c2State : GridState := { wState with hasResidualMomentum := true, ignoreNewWheel := true, previousMomentum := some 100 }

/-- A plain vertical pixel-mode wheel event with an empty ancestor chain. -/
def pixelWheel (dy : Int) : Wheel := { ctrlKey := false, deltaX := 0, deltaY := dy, deltaMode := .pixel, chain := [] }

/-- A wheel event with the ctrl modifier held. -/
def ctrlWheel : Wheel := { pixelWheel 10 with ctrlKey := true }

/-- An ancestor-chain node that can absorb a downward delta and has
`overflow: auto`. -/
def c9Node : DomNode := { el := { localName := "div", scrollTop := 0, scrollLeft := 0, scrollHeight := 500, scrollWidth := 0, clientHeight := 100, clientWidth := 0, offsetHeight := 100, offsetWidth := 0, overflow := "auto" }, isGrid := false }

/-- A reorder state whose focused-row reference points at a row that is
not among the rendered rows (`index = -2` is outside the window). -/
def c6State : RState := { items := [⟨0, false⟩, ⟨1, false⟩], focused := some ⟨-2, false⟩, adjustedVirtualStart := 0, mouseDown := false, pendingReorder := false }

/-- A drag model mid-drag (`mousedown` held), no reorder pending yet. -/
def c5Model : DragModel := { r := { items := [⟨0, false⟩, ⟨1, false⟩], focused := none, adjustedVirtualStart := 0, mouseDown := true, pendingReorder := false }, scheduled := 0 }

/-- A scroll surface scrolled to its bottom edge (no downward capacity). -/
def c8Table : Elem := { wTable with scrollTop := 600 }

/-- Cooldown active at the bottom edge, residual momentum recorded. -/
def c8Cooldown : GridState := { wState with table := c8Table, ignoreNewWheel := true, hasResidualMomentum := true, previousMomentum := some 100 }

/-- Cooldown elapsed at the bottom edge with a small previous momentum. -/
def c8Pass : GridState := { c8Cooldown with ignoreNewWheel := false, previousMomentum := some 5 }

/-- A rendered window consisting of a single hidden row, nothing focused. -/
def c6Hidden : RState := { items := [⟨0, true⟩], focused := none, adjustedVirtualStart := 0, mouseDown := false, pendingReorder := false }

/-- Three consecutive rows in logical order. -/
def c3Base : List Row := [⟨0, false⟩, ⟨1, false⟩, ⟨2, false⟩]

/-- A reorder state whose physical order is `c3Base` rotated by one. -/
def c3State : RState := { items := c3Base.rotate 1, focused := none, adjustedVirtualStart := 0, mouseDown := false, pendingReorder := false }

/-! Helper lemmas. -/

/-- A list of rows with consecutive indices has no duplicates. -/
theorem consecutive_nodup (l : List Row) (start : Int)
    (hc : ∀ i (h : i < l.length), (l.get ⟨i, h⟩).index = start + i) : l.Nodup := by
  rw [List.nodup_iff_injective_get]
  intro i j hij
  have hi := hc i.1 i.2
  have hj := hc j.1 j.2
  have hv : (i.1 : Int) = (j.1 : Int) := by
    have : start + (i.1 : Int) = start + (j.1 : Int) := by
      rw [← hi, ← hj]
      exact congrArg Row.index hij
    omega
  exact Fin.ext (by exact_mod_cast hv)

/-- In a consecutive list, a member's physical position is its index
minus the window start. -/
theorem jsIndexOf_consecutive (l : List Row) (start : Int)
    (hc : ∀ i (h : i < l.length), (l.get ⟨i, h⟩).index = start + i)
    (r : Row) (hr : r ∈ l) : jsIndexOf l r = r.index - start := by
  obtain ⟨i, hi⟩ := List.get_of_mem hr
  have hnd := consecutive_nodup l start hc
  have hidx : l.indexOf r = i.1 := by
    rw [← hi]
    exact List.get_indexOf hnd i
  have hri : r.index = start + i.1 := by
    rw [← hi]
    exact hc i.1 i.2
  unfold jsIndexOf
  rw [if_pos hr, hidx, hri]
  ring

/-- `_reorderRows` on a physically sorted window moves nothing. -/
theorem reorder_noop_sorted (s : RState) (start : Int)
    (hm : s.mouseDown = false)
    (hs : s.adjustedVirtualStart = start)
    (hc : ∀ i (h : i < s.items.length), (s.items.get ⟨i, h⟩).index = start + i)
    (hmem : ∀ r, reorderTarget s.focused s.items = some r → r ∈ s.items) :
    reorderRows s = (s, 0) := by
  unfold reorderRows
  rw [hm]
  simp only [Bool.false_eq_true, if_false]
  by_cases he : s.items.isEmpty
  · rw [if_pos he]
  · rw [if_neg he]
    cases ht : reorderTarget s.focused s.items with
    | none => rfl
    | some r =>
      have hr := hmem r ht
      have hidx := jsIndexOf_consecutive s.items start hc r hr
      rw [hs]
      dsimp only
      rw [hidx]
      simp

/-- Core of the row-reorder analysis: on a window that is a rotation (by
`k < N`) of consecutive logical order, `_reorderRows` restores logical
order and performs `|P - D|` moves, where `P` is the target's physical
position and `D = target.index - adjustedVirtualStart`. -/
theorem reorder_rotate_core (base : List Row) (k : Nat) (f : Option Row) (start : Int) (p : Bool)
    (t : Row)
    (hc : ∀ i (h : i < base.length), (base.get ⟨i, h⟩).index = start + i)
    (hk : k < base.length)
    (ht : reorderTarget f (base.rotate k) = some t)
    (htm : t ∈ base.rotate k) :
    reorderRows ⟨base.rotate k, f, start, false, p⟩ =
      (⟨base, f, start, false, p⟩,
        (jsIndexOf (base.rotate k) t - (t.index - start)).natAbs) := by
  have hn0 : 0 < base.length := lt_of_le_of_lt (Nat.zero_le k) hk
  have hlen : (base.rotate k).length = base.length := List.length_rotate base k
  have hndb : base.Nodup := consecutive_nodup base start hc
  have hnd : (base.rotate k).Nodup := List.nodup_rotate.mpr hndb
  obtain ⟨i, hi⟩ := List.get_of_mem htm
  have hPidx : (base.rotate k).indexOf t = i.1 := by
    rw [← hi]
    exact List.get_indexOf hnd i
  have hgr := List.get_rotate base k i
  have htidx : t.index = start + ((i.1 + k) % base.length : ℕ) := by
    rw [← hi, hgr]
    exact hc _ _
  have hji : jsIndexOf (base.rotate k) t = (i.1 : Int) := by
    unfold jsIndexOf
    rw [if_pos htm, hPidx]
  have hiln : i.1 < base.length := hlen ▸ i.2
  have hne2 : base.rotate k ≠ [] := by
    intro h0
    rw [h0] at hlen
    simp at hlen
    omega
  have hrot : (base.rotate k).drop (base.length - k) ++ (base.rotate k).take (base.length - k) =
      base := by
    have h1 : (base.rotate k).rotate (base.length - k) =
        (base.rotate k).drop (base.length - k) ++ (base.rotate k).take (base.length - k) :=
      List.rotate_eq_drop_append_take (by omega)
    rw [← h1, List.rotate_rotate]
    have : k + (base.length - k) = base.length := by omega
    rw [this, List.rotate_length]
  unfold reorderRows
  dsimp only
  simp only [Bool.false_eq_true, if_false]
  rw [if_neg (fun h => hne2 (List.isEmpty_iff.mp h)), ht]
  dsimp only
  rcases Nat.lt_or_ge (i.1 + k) base.length with hcase | hcase
  · -- the target sits in the unwrapped part: delta = -k
    have hmA : (i.1 + k) % base.length = i.1 + k := Nat.mod_eq_of_lt hcase
    have hdA : jsIndexOf (base.rotate k) t - (t.index - start) = -(k : Int) := by
      rw [hji, htidx, hmA]
      push_cast
      ring
    rw [hdA]
    by_cases hk0 : k = 0
    · subst hk0
      rw [if_neg (by omega), if_neg (by omega)]
      simp [List.rotate_zero]
    · rw [if_neg (by omega), if_pos (by omega)]
      rw [hlen]
      have hmv : (-(-(k : Int))).toNat = k := by omega
      have hab : (-(k : Int)).natAbs = k := by omega
      rw [hmv, hab, hrot]
  · -- the target sits in the wrapped part: delta = N - k
    have hmB : (i.1 + k) % base.length = i.1 + k - base.length := by
      rw [Nat.mod_eq_sub_mod hcase, Nat.mod_eq_of_lt (by omega)]
    have hdB : jsIndexOf (base.rotate k) t - (t.index - start) =
        (base.length : Int) - (k : Int) := by
      rw [hji, htidx, hmB, Nat.cast_sub hcase]
      push_cast
      ring
    rw [hdB]
    rw [if_pos (by omega)]
    have hmv : ((base.length : Int) - (k : Int)).toNat = base.length - k := by omega
    have hab : ((base.length : Int) - (k : Int)).natAbs = base.length - k := by omega
    rw [hmv, hab, hrot]

/-- `_onWheel` when the gate applies the delta (capacity available, no
frame pending): marks the event handled and enters the cooldown. -/
theorem onWheel_applied_fields (s : GridState) (e : Wheel)
    (hc : e.ctrlKey = false)
    (ha : hasScrolledAncestor e.chain e.deltaX e.deltaY = false)
    (hf : s.wheelAnimationFrame = false)
    (hcap : canScroll s.table (some e.deltaX) (effDeltaY s e) = true) :
    (onWheel s e).2 = true ∧ (onWheel s e).1.ignoreNewWheel = true ∧
      (onWheel s e).1.hasResidualMomentum = true := by
  unfold onWheel
  rw [hc, ha, hf]
  dsimp only
  rw [hcap]
  simp

/-- `_onWheel` in the swallow branch (no capacity; residual momentum with
non-increasing momentum, or cooldown active): prevents default, only the
accumulator, frame flag and previous momentum change. -/
theorem onWheel_swallow (s : GridState) (e : Wheel)
    (hc : e.ctrlKey = false)
    (ha : hasScrolledAncestor e.chain e.deltaX e.deltaY = false)
    (hf : s.wheelAnimationFrame = false)
    (hcap : canScroll s.table (some e.deltaX) (effDeltaY s e) = false)
    (hsw : ((s.hasResidualMomentum && jsLe (momentumOf s e) s.previousMomentum) ||
      s.ignoreNewWheel) = true) :
    onWheel s e =
      ({ s with deltaYAcc := some 0, wheelAnimationFrame := true, previousMomentum := momentumOf s e }, true) := by
  unfold onWheel
  rw [hc, ha, hf]
  dsimp only
  rw [hcap, hsw]
  simp

/-- `_onWheel` in the pass-through branch (no capacity, not swallowing,
momentum increasing): does not prevent default and clears
`_hasResidualMomentum`. -/
theorem onWheel_pass (s : GridState) (e : Wheel)
    (hc : e.ctrlKey = false)
    (ha : hasScrolledAncestor e.chain e.deltaX e.deltaY = false)
    (hf : s.wheelAnimationFrame = false)
    (hcap : canScroll s.table (some e.deltaX) (effDeltaY s e) = false)
    (hsw : ((s.hasResidualMomentum && jsLe (momentumOf s e) s.previousMomentum) ||
      s.ignoreNewWheel) = false)
    (hgt : jsGt (momentumOf s e) s.previousMomentum = true) :
    onWheel s e =
      ({ s with deltaYAcc := some 0, wheelAnimationFrame := true, hasResidualMomentum := false, previousMomentum := momentumOf s e }, false) := by
  unfold onWheel
  rw [hc, ha, hf]
  dsimp only
  rw [hcap, hsw, hgt]
  simp

/-! Claim theorems. -/

/-- C1 (counterexample).  The claim states the capacity test returns true
iff `(dy>0 and scrollTop < scrollHeight - clientHeight) or ...`; but
`_canScroll` compares against `offsetHeight`, so on an element with
`scrollTop = 0`, `scrollHeight = 1000`, `clientHeight = 400`,
`offsetHeight = 1000` and `dy = 50` the claim's formula is true while
`_canScroll` returns false. -/
theorem c1_capacity_counterexample :
    canScroll c1Elem (some 0) (some 50) = false ∧ specCanScrollClient c1Elem 0 50 = true := by
  decide

/-- C1 (amended).  `_canScroll` is a pure function of the element's scroll
metrics returning true iff `(dy>0 and scrollTop < scrollHeight -
offsetHeight) or (dy<0 and scrollTop>0) or (dx>0 and scrollLeft <
scrollWidth - offsetWidth) or (dx<0 and scrollLeft>0)`; and on the
example element (`scrollTop = 0`, `scrollHeight = 1000`,
`clientHeight = offsetHeight = 400`) with `dy = -50` it returns false. -/
theorem c1_capacity_amended :
    (∀ (el : Elem) (dx dy : Int), canScroll el (some dx) (some dy) = amendedCanScroll el dx dy) ∧
    canScroll c1Example (some 0) (some (-50)) = false := by
  exact ⟨fun el dx dy => rfl, by decide⟩

/-- C2 (counterexample).  The claim states that every wheel event arriving
during the 500ms cooldown is marked handled but not applied; in the code
the cooldown flag is only consulted after the capacity test, so an event
arriving mid-cooldown while the surface still has capacity IS applied:
here `scrollTop` moves from 0 to 10. -/
theorem c2_cooldown_counterexample :
    c2State.ignoreNewWheel = true ∧
    (onWheel c2State (pixelWheel 10)).2 = true ∧
    c2State.table.scrollTop = 0 ∧
    (onWheel c2State (pixelWheel 10)).1.table.scrollTop = 10 := by
  decide

/-- C2 (amended).  After a wheel event whose delta is applied, the handler
enters the cooldown (`_ignoreNewWheel = true`); a subsequent wheel event
arriving while the cooldown is active *and for which the scroll surface
lacks capacity* is marked handled but its delta is not applied (events
with capacity are applied normally). -/
theorem c2_cooldown_amended (s : GridState) (e1 e2 : Wheel)
    (hc1 : e1.ctrlKey = false)
    (ha1 : hasScrolledAncestor e1.chain e1.deltaX e1.deltaY = false)
    (hf : s.wheelAnimationFrame = false)
    (hcap : canScroll s.table (some e1.deltaX) (effDeltaY s e1) = true)
    (hc2 : e2.ctrlKey = false)
    (ha2 : hasScrolledAncestor e2.chain e2.deltaX e2.deltaY = false)
    (hcap2 : canScroll (onWheel s e1).1.table (some e2.deltaX)
      (effDeltaY (wheelAnimationFrameFire (onWheel s e1).1) e2) = false) :
    (onWheel s e1).2 = true ∧ (onWheel s e1).1.ignoreNewWheel = true ∧
    (onWheel (wheelAnimationFrameFire (onWheel s e1).1) e2).2 = true ∧
    (onWheel (wheelAnimationFrameFire (onWheel s e1).1) e2).1.table = (onWheel s e1).1.table := by
  obtain ⟨hp1, hcool, _⟩ := onWheel_applied_fields s e1 hc1 ha1 hf hcap
  have h2 := onWheel_swallow (wheelAnimationFrameFire (onWheel s e1).1) e2 hc2 ha2 rfl
    hcap2 (by rw [show (wheelAnimationFrameFire (onWheel s e1).1).ignoreNewWheel =
      (onWheel s e1).1.ignoreNewWheel from rfl, hcool, Bool.or_true])
  refine ⟨hp1, hcool, ?_, ?_⟩
  · rw [h2]
  · rw [h2]
    rfl

/-- C2 (witness). -/
theorem c2_cooldown_amended_witness :
    (onWheel wState (pixelWheel 600)).2 = true ∧
    (onWheel wState (pixelWheel 600)).1.ignoreNewWheel = true ∧
    (onWheel (wheelAnimationFrameFire (onWheel wState (pixelWheel 600)).1) (pixelWheel 10)).2 = true ∧
    (onWheel (wheelAnimationFrameFire (onWheel wState (pixelWheel 600)).1) (pixelWheel 10)).1.table =
      (onWheel wState (pixelWheel 600)).1.table :=
  c2_cooldown_amended wState (pixelWheel 600) (pixelWheel 10) rfl rfl rfl (by decide) rfl rfl (by decide)

/-- C4.  The claim (and the spec's error-handling section) says a failed
line-height probe makes LINE-mode normalization a no-op / 0 scaling and
never produces a NaN offset; the code instead computes
`deltaY *= undefined`, i.e. NaN (`none`), for every raw delta. -/
theorem c4_line_mode_nan :
    normalizeDeltaY DeltaMode.line 1 none (some 514) = none ∧
    (∀ (dy : Int) (ph : JNum), normalizeDeltaY DeltaMode.line dy none ph = none) := by
  exact ⟨rfl, fun dy ph => rfl⟩

/-- C7.  `_scrollViewportHeightUpdated` computes page height as viewport
height minus header height minus footer height minus line height, and a
PAGE-mode wheel event with raw `dy = 1` normalizes to that page height;
with viewport 600, header 40, footer 30, line-height 16 this is 514. -/
theorem c7_page_height (v h f l : Int) :
    scrollViewportHeightUpdated v h f (some l) = some (v - h - f - l) ∧
    scrollViewportHeightUpdated 600 40 30 (some 16) = some 514 ∧
    normalizeDeltaY DeltaMode.page 1 (some 16)
      (scrollViewportHeightUpdated 600 40 30 (some 16)) = some 514 := by
  exact ⟨rfl, by decide, by decide⟩

/-- C10.  A wheel event with the ctrl modifier makes `_onWheel` return
before doing anything: no `preventDefault`, and the whole state (scroll
offsets, accumulator, residual-momentum flag, previous momentum) is
untouched. -/
theorem c10_ctrl_early_return (s : GridState) (e : Wheel) (hc : e.ctrlKey = true) :
    onWheel s e = (s, false) := by
  unfold onWheel
  rw [hc]
  simp

/-- C10 (witness). -/
theorem c10_ctrl_early_return_witness : onWheel wState ctrlWheel = (wState, false) :=
  c10_ctrl_early_return wState ctrlWheel rfl

/-- C9.  If the ancestor prober returns true, then some chain node
strictly before any `vaadin-grid-cell-content` boundary (itself included)
passes both the capacity test and the overflow `auto`/`scroll` test; in
particular the prober never returns true once the walk reaches the
boundary element, whatever that element's own capacity or overflow. -/
theorem c9_boundary_guard (chain : List DomNode) (dx dy : Int)
    (h : hasScrolledAncestor chain dx dy = true) :
    triggerBeforeBoundary chain dx dy = true := by
  induction chain with
  | nil => exact absurd h (by simp [hasScrolledAncestor])
  | cons n rest ih =>
    rw [hasScrolledAncestor] at h
    rw [triggerBeforeBoundary]
    split at h
    · exact absurd h (by simp)
    · next hb =>
      have hb2 : (n.el.localName == "vaadin-grid-cell-content") = false := by
        simpa using hb
      split at h
      · next htr =>
        rw [hb2, htr]
        simp
      · next htr =>
        split at h
        · next hrec =>
          rw [hb2, ih h]
          simp
        · exact absurd h (by simp)

/-- C9 (witness). -/
theorem c9_boundary_guard_witness : triggerBeforeBoundary [c9Node] 0 5 = true :=
  c9_boundary_guard [c9Node] 0 5 (by decide)

/-- C8.  Past capacity (the surface cannot move by the event's deltas),
the momentum gate swallows every event while the cooldown is active, and
also while residual momentum is set and momentum has not increased; once
the cooldown is over and momentum exceeds the last observed value, the
event passes through unhandled and the residual-momentum flag is
cleared.  In every branch the scroll surface is untouched. -/
theorem c8_momentum_gate (s : GridState) (e : Wheel)
    (hc : e.ctrlKey = false)
    (ha : hasScrolledAncestor e.chain e.deltaX e.deltaY = false)
    (hf : s.wheelAnimationFrame = false)
    (hcap : canScroll s.table (some e.deltaX) (effDeltaY s e) = false) :
    (s.ignoreNewWheel = true → (onWheel s e).2 = true ∧ (onWheel s e).1.table = s.table) ∧
    (s.hasResidualMomentum = true → jsLe (momentumOf s e) s.previousMomentum = true →
      (onWheel s e).2 = true ∧ (onWheel s e).1.table = s.table) ∧
    (s.ignoreNewWheel = false → jsGt (momentumOf s e) s.previousMomentum = true →
      (onWheel s e).2 = false ∧ (onWheel s e).1.hasResidualMomentum = false ∧
      (onWheel s e).1.table = s.table) := by
  refine ⟨?_, ?_, ?_⟩
  · intro hcool
    have h := onWheel_swallow s e hc ha hf hcap (by rw [hcool, Bool.or_true])
    rw [h]
    exact ⟨rfl, rfl⟩
  · intro hres hle
    have h := onWheel_swallow s e hc ha hf hcap
      (by rw [hres, hle, Bool.true_and, Bool.true_or])
    rw [h]
    exact ⟨rfl, rfl⟩
  · intro hcool hgt
    have hle : jsLe (momentumOf s e) s.previousMomentum = false := by
      cases hm1 : momentumOf s e with
      | none => cases s.previousMomentum <;> rfl
      | some a =>
        cases hm2 : s.previousMomentum with
        | none => rfl
        | some b =>
          rw [hm1, hm2] at hgt
          simp only [jsGt, decide_eq_true_eq] at hgt
          simp only [jsLe, decide_eq_false_iff_not]
          omega
    have h := onWheel_pass s e hc ha hf hcap
      (by rw [hle, Bool.and_false, Bool.false_or, hcool]) hgt
    rw [h]
    exact ⟨rfl, rfl, rfl⟩

/-- C8 (witness). -/
theorem c8_momentum_gate_witness :
    ((onWheel c8Cooldown (pixelWheel 10)).2 = true ∧
      (onWheel c8Cooldown (pixelWheel 10)).1.table = c8Cooldown.table) ∧
    ((onWheel c8Pass (pixelWheel 10)).2 = false ∧
      (onWheel c8Pass (pixelWheel 10)).1.hasResidualMomentum = false ∧
      (onWheel c8Pass (pixelWheel 10)).1.table = c8Pass.table) :=
  ⟨(c8_momentum_gate c8Cooldown (pixelWheel 10) rfl rfl rfl (by decide)).1 rfl,
    (c8_momentum_gate c8Pass (pixelWheel 10) rfl rfl rfl (by decide)).2.2 rfl (by decide)⟩

/-- C5.  Every reorder request arriving while the scrollbar drag flag is
set performs zero row moves and records the pending flag (whatever its
prior value); releasing the drag afterwards clears the flag and
schedules exactly one deferred reorder, whose timer execution performs
exactly the one `_reorderRows` call and consumes the scheduled slot. -/
theorem c5_drag_defer (m : DragModel) (hd : m.r.mouseDown = true) :
    dragStep m DragEvent.reorderReq = ({ m with r := { m.r with pendingReorder := true } }, 0) ∧
    (dragStep (dragStep m DragEvent.reorderReq).1 DragEvent.mouseUp).1.scheduled =
      m.scheduled + 1 ∧
    (dragStep (dragStep m DragEvent.reorderReq).1 DragEvent.mouseUp).1.r.pendingReorder = false ∧
    (dragStep (dragStep m DragEvent.reorderReq).1 DragEvent.mouseUp).2 = 0 ∧
    (dragStep (dragStep (dragStep m DragEvent.reorderReq).1 DragEvent.mouseUp).1
        DragEvent.timerFire).1.r =
      (reorderRows (dragStep (dragStep m DragEvent.reorderReq).1 DragEvent.mouseUp).1.r).1 ∧
    (dragStep (dragStep (dragStep m DragEvent.reorderReq).1 DragEvent.mouseUp).1
        DragEvent.timerFire).2 =
      (reorderRows (dragStep (dragStep m DragEvent.reorderReq).1 DragEvent.mouseUp).1.r).2 ∧
    (dragStep (dragStep (dragStep m DragEvent.reorderReq).1 DragEvent.mouseUp).1
        DragEvent.timerFire).1.scheduled = m.scheduled := by
  have hrr : dragStep m DragEvent.reorderReq =
      ({ m with r := { m.r with pendingReorder := true } }, 0) := by
    have hre : reorderRows m.r = ({ m.r with pendingReorder := true }, 0) := by
      unfold reorderRows
      rw [if_pos hd]
    unfold dragStep
    dsimp only
    rw [hre]
  have hmu : dragStep { m with r := { m.r with pendingReorder := true } } DragEvent.mouseUp =
      ({ m with r := { m.r with mouseDown := false, pendingReorder := false }, scheduled := m.scheduled + 1 }, 0) := by
    unfold dragStep
    dsimp only
    rw [if_pos rfl]
  rw [hrr]
  dsimp only
  rw [hmu]
  dsimp only
  refine ⟨rfl, rfl, rfl, rfl, ?_, ?_, ?_⟩
  · unfold dragStep
    dsimp only
    rw [if_pos (Nat.succ_ne_zero m.scheduled)]
  · unfold dragStep
    dsimp only
    rw [if_pos (Nat.succ_ne_zero m.scheduled)]
  · unfold dragStep
    dsimp only
    rw [if_pos (Nat.succ_ne_zero m.scheduled)]
    dsimp only
    omega

/-- C5 (witness). -/
theorem c5_drag_defer_witness :
    dragStep c5Model DragEvent.reorderReq =
      ({ c5Model with r := { c5Model.r with pendingReorder := true } }, 0) ∧
    (dragStep (dragStep c5Model DragEvent.reorderReq).1 DragEvent.mouseUp).1.scheduled =
      c5Model.scheduled + 1 ∧
    (dragStep (dragStep c5Model DragEvent.reorderReq).1 DragEvent.mouseUp).1.r.pendingReorder =
      false ∧
    (dragStep (dragStep c5Model DragEvent.reorderReq).1 DragEvent.mouseUp).2 = 0 ∧
    (dragStep (dragStep (dragStep c5Model DragEvent.reorderReq).1 DragEvent.mouseUp).1
        DragEvent.timerFire).1.r =
      (reorderRows (dragStep (dragStep c5Model DragEvent.reorderReq).1 DragEvent.mouseUp).1.r).1 ∧
    (dragStep (dragStep (dragStep c5Model DragEvent.reorderReq).1 DragEvent.mouseUp).1
        DragEvent.timerFire).2 =
      (reorderRows (dragStep (dragStep c5Model DragEvent.reorderReq).1 DragEvent.mouseUp).1.r).2 ∧
    (dragStep (dragStep (dragStep c5Model DragEvent.reorderReq).1 DragEvent.mouseUp).1
        DragEvent.timerFire).1.scheduled = c5Model.scheduled :=
  c5_drag_defer c5Model rfl

/-- C6 (counterexample).  The claim says the stabilization target is the
focused row only "if present and still rendered"; the code uses the
focused-row reference unconditionally.  With a focused row of index -2
that is not among the two rendered rows (indices 0, 1, already in logical
order) the claim implies a no-op, yet the engine performs one move. -/
theorem c6_target_counterexample :
    (reorderRows c6State).2 = 1 ∧
    reorderTarget c6State.focused c6State.items ≠
      reorderTargetSpec c6State.focused c6State.items := by
  decide

/-- C6 (amended).  The stabilization target is the focused-row reference
whenever it is set (with no rendered-membership check), else the first
non-hidden row in physical order; when no focused row is set and every
rendered row is hidden (or no rows are rendered) the engine is a no-op
performing no DOM mutation. -/
theorem c6_target_amended (s : RState) (hm : s.mouseDown = false) :
    (∀ r, s.focused = some r → reorderTarget s.focused s.items = some r) ∧
    (s.focused = none →
      reorderTarget s.focused s.items = (s.items.filter fun r => !r.hidden).head?) ∧
    (s.focused = none → (∀ r ∈ s.items, r.hidden = true) → reorderRows s = (s, 0)) ∧
    (s.items = [] → reorderRows s = (s, 0)) := by
  refine ⟨?_, ?_, ?_, ?_⟩
  · intro r hr
    rw [hr]
    rfl
  · intro hf
    rw [hf]
    rfl
  · intro hf hh
    have ht : reorderTarget s.focused s.items = none := by
      rw [hf]
      unfold reorderTarget
      cases hfl : s.items.filter (fun r => !r.hidden) with
      | nil => rfl
      | cons a tl =>
        exfalso
        have ha : a ∈ s.items.filter (fun r => !r.hidden) := by
          rw [hfl]
          exact List.mem_cons_self a tl
        have hmf := List.mem_filter.mp ha
        have h1 := hh a hmf.1
        rw [h1] at hmf
        simp at hmf
    unfold reorderRows
    rw [hm]
    simp only [Bool.false_eq_true, if_false]
    by_cases he : s.items.isEmpty
    · rw [if_pos he]
    · rw [if_neg he, ht]
  · intro he
    unfold reorderRows
    rw [hm]
    simp only [Bool.false_eq_true, if_false]
    rw [if_pos (by rw [he]; rfl)]

/-- C6 (witness). -/
theorem c6_target_amended_witness : reorderRows c6Hidden = (c6Hidden, 0) :=
  (c6_target_amended c6Hidden rfl).2.2.1 rfl (by decide)

/-- C3.  On a rendered window whose physical order is a rotation of
logical index order, `_reorderRows` performs exactly `|P - D|` node moves
(`P` the target's physical position, `D = target.index -
adjustedVirtualStart`), leaves the physical order equal to logical index
order, and a second invocation with no intervening state change computes
delta 0 and mutates nothing. -/
theorem c3_reorder_rotation (base : List Row) (k : Nat) (s : RState) (t : Row)
    (hc : ∀ i (h : i < base.length), (base.get ⟨i, h⟩).index = s.adjustedVirtualStart + i)
    (hk : k < base.length)
    (hitems : s.items = base.rotate k)
    (hm : s.mouseDown = false)
    (ht : reorderTarget s.focused s.items = some t)
    (htm : t ∈ s.items) :
    (reorderRows s).2 = (jsIndexOf s.items t - (t.index - s.adjustedVirtualStart)).natAbs ∧
    (reorderRows s).1.items = base ∧
    reorderRows (reorderRows s).1 = ((reorderRows s).1, 0) := by
  obtain ⟨items, f, start, md, p⟩ := s
  dsimp only at hc hitems hm ht htm ⊢
  subst hitems
  subst hm
  have hcore := reorder_rotate_core base k f start p t hc hk ht htm
  rw [hcore]
  dsimp only
  refine ⟨rfl, rfl, ?_⟩
  apply reorder_noop_sorted _ start rfl rfl hc
  intro r hr
  cases hf : f with
  | some q =>
    rw [hf] at ht hr
    have h1 : q = t := by simpa [reorderTarget] using ht
    have h2 : q = r := by simpa [reorderTarget] using hr
    rw [← h2, h1]
    exact List.mem_rotate.mp htm
  | none =>
    rw [hf] at hr
    have hh : (base.filter fun x => !x.hidden).head? = some r := by
      simpa [reorderTarget] using hr
    have hrm : r ∈ base.filter fun x => !x.hidden := by
      cases hfl : base.filter (fun x => !x.hidden) with
      | nil =>
        rw [hfl] at hh
        cases hh
      | cons a tl =>
        rw [hfl] at hh
        injection hh with hh2
        rw [← hh2]
        exact List.mem_cons_self a tl
    exact (List.mem_filter.mp hrm).1

/-- C3 (witness). -/
theorem c3_reorder_rotation_witness :
    (reorderRows c3State).2 =
      (jsIndexOf c3State.items ⟨1, false⟩ -
        ((⟨1, false⟩ : Row).index - c3State.adjustedVirtualStart)).natAbs ∧
    (reorderRows c3State).1.items = c3Base ∧
    reorderRows (reorderRows c3State).1 = ((reorderRows c3State).1, 0) :=
  c3_reorder_rotation c3Base 1 c3State ⟨1, false⟩ (by decide) (by decide) rfl rfl
    (by decide) (by decide)

end VaadinGridScroll
